import Mathlib

/-!
Verification of `scripts/diagnostic-agent.py` — a rate-limited diagnostic
dispatch pipeline.  The Python source is shallowly embedded: pure string
manipulation is translated to Lean functions over `String` / `List Char`,
the rate-limit store (a newline-separated file of float timestamps) is
modelled as a list of timestamps (`none` when the file does not exist),
and external collaborators (the file system, the `git` subprocess, the LLM
client, `json.loads`) are explicit parameters describing their outcomes.

Timestamps (`time.time()` floats) are modelled over an arbitrary linear
ordered commutative ring `α`: the limiter only subtracts the constant 3600
from a timestamp and compares, so every theorem below holds in particular
at `α := ℚ` (a superset of the IEEE floats the script manipulates);
concrete witnesses instantiate `α := ℤ` for kernel-computable arithmetic.
-/

namespace DiagnosticAgent

section RateLimiter

variable {α : Type} [LinearOrderedCommRing α]

/-- `MAX_CALLS_PER_HOUR = 10` (diagnostic-agent.py line 19). -/
def MAX_CALLS_PER_HOUR : Nat := 10

/-- The strict trailing-hour filter of `check_rate_limit` (lines 24, 33):
`recent_calls = [t for t in calls if t > hour_ago]` with `hour_ago = now - 3600`. -/
def rateWindow (now : α) (calls : List α) : List α :=
  calls.filter (fun t => now - 3600 < t)

/-- `check_rate_limit` (lines 21–44).  The store is `none` when
`RATE_LIMIT_FILE` does not exist.  Returns the admit decision and the store
contents written back (every branch of the Python function writes the file):

* file missing: write `str(now)`, return `True`;
* `len(recent_calls) >= MAX_CALLS_PER_HOUR`: write the pruned window, return `False`;
* otherwise append `now`, write, return `True`. -/
def check_rate_limit (now : α) (store : Option (List α)) : Bool × List α :=
  match store with
  | none => (true, [now])
  | some calls =>
    let recent_calls := rateWindow now calls
    if MAX_CALLS_PER_HOUR ≤ recent_calls.length then
      (false, recent_calls)
    else
      (true, recent_calls ++ [now])

/-- One serialized run of `check_rate_limit` at each time in `times`
(in order), threading the persisted store; also accumulates the list of
admitted timestamps. -/
def runCallsFrom (store : Option (List α)) (admitted : List α) :
    List α → Option (List α) × List α
  | [] => (store, admitted)
  | now :: rest =>
    let r := check_rate_limit now store
    runCallsFrom (some r.2) (if r.1 then admitted ++ [now] else admitted) rest

/-- Run a serialized sequence of `check_rate_limit` calls starting from a
missing rate-limit file; returns the final store and the admitted timestamps. -/
def runCalls (times : List α) : Option (List α) × List α :=
  runCallsFrom none [] times

/-- Membership test for the trailing 3600-second window anchored at `T`. -/
def inTrailingWindow (T t : α) : Bool :=
  decide (T - 3600 < t) && decide (t ≤ T)

/-- The in-window records of a persisted store (`[]` when the file is
missing): the `RateWindow` of §3 of the spec. -/
def storedWindow (now : α) : Option (List α) → List α
  | none => []
  | some calls => rateWindow now calls

end RateLimiter

/-! ## Python string primitives used by the script -/

/-- Fueled worker for Python `str.replace`: scan left to right; whenever the
pattern is a prefix of the remaining text, emit the replacement and continue
after the matched occurrence (non-overlapping, replacements not rescanned). -/
def replaceAllAux (pat rep : List Char) : Nat → List Char → List Char
  | _, [] => []
  | 0, s => s
  | fuel + 1, c :: rest =>
    if pat.isPrefixOf (c :: rest) ∧ pat ≠ [] then
      rep ++ replaceAllAux pat rep fuel (List.drop pat.length (c :: rest))
    else
      c :: replaceAllAux pat rep fuel rest

/-- Python `s.replace(pat, rep)` for a non-empty `pat`: replace every
(leftmost, non-overlapping) occurrence. -/
def pyReplace (s pat rep : String) : String :=
  ⟨replaceAllAux pat.data rep.data s.data.length s.data⟩

/-- Python `str.strip()` whitespace set (ASCII part). -/
def isPySpace (c : Char) : Bool :=
  c = ' ' || c = '\t' || c = '\n' || c = '\r' || c = '\x0b' || c = '\x0c'

/-- Python `s.strip()`: drop leading and trailing whitespace. -/
def pyStrip (s : String) : String :=
  ⟨((s.data.dropWhile isPySpace).reverse.dropWhile isPySpace).reverse⟩

/-- Python `s[:n]` (character slice). -/
def pyTake (s : String) (n : Nat) : String :=
  ⟨s.data.take n⟩

/-! ## Target-to-path mapping -/

/-- The target-to-path transform written at line 54 of the source
(`collect_source_context`):
`target.replace("server::", "src/").replace("::", "/") + ".rs"`. -/
def sourcePathOf (target : String) : String :=
  pyReplace (pyReplace target "server::" "src/") "::" "/" ++ ".rs"

/-- The target-to-path transform written at line 64 of the source
(`collect_git_context`):
`target.replace("server::", "src/").replace("::", "/") + ".rs"`. -/
def historyPathOf (target : String) : String :=
  pyReplace (pyReplace target "server::" "src/") "::" "/" ++ ".rs"

/-! ## External collaborators

The file system, the `git` subprocess and the LLM client are outside the
script; their possible outcomes are modelled explicitly and the script's
functions become functions of those outcomes. -/

/-- Python exceptions are modelled by their `str(e)` rendering. -/
abbrev PyExc := String

/-- State of a path on the file system, as observed by
`full_path.exists()` / `full_path.read_text(encoding="utf-8")`:
the path is absent, or reading yields a string, or the path exists but
`read_text` raises (permission error, a directory, non-UTF-8 bytes, …). -/
inductive FileState where
  | absent
  | file (content : String)
  | unreadable (e : PyExc)

/-- Outcome of `subprocess.run(["git", "log", "--oneline", "-5", "--", path], …)`.
With `capture_output=True` and no `check=True`, a process that runs to
completion never raises regardless of its exit status (a `git log` outside a
repository completes with exit code 128 and empty stdout); `subprocess.run`
raises only for e.g. `TimeoutExpired` or a missing executable /
working directory. -/
inductive GitOutcome where
  | completed (returncode : Int) (stdout : String)
  | raises (e : PyExc)

/-- Outcome of `client.messages.create(...)` followed by
`response.content[0].text`: the raw response text, or a raised exception
(transport error, empty content list, …). -/
inductive LLMOutcome where
  | returns (text : String)
  | raises (e : PyExc)

/-- A decoded JSON value, the result type of `json.loads` on the located
brace span (an arbitrary Python object; its internal structure is not
inspected by the script, which returns it verbatim). -/
inductive PyJson where
  | null
  | bool (b : Bool)
  | num (q : Int)
  | str (s : String)
  | arr (xs : List PyJson)
  | obj (kvs : List (String × PyJson))

/-- The collaborators of one `diagnose` invocation.  `fs` maps a
project-root-relative path to its state; `git` gives the subprocess outcome
as a function of the path argument passed to `git log`; `jsonDecode` models
`json.loads` on the located brace span (`Except.error` carries `str(e)` of
the raised `JSONDecodeError`). -/
structure Env where
  fs : String → FileState
  git : String → GitOutcome
  llm : LLMOutcome
  jsonDecode : String → Except PyExc PyJson

/-! ## Context collectors -/

/-- `collect_source_context` (lines 51–60).  The file system is a parameter
keyed by the project-root-relative path; the function builds
`"codes/server/" ++ path` from the line-54 transform.  A present, readable
file is returned truncated to its first 3000 characters when longer
(`content[:3000] if len(content) > 3000 else content`); a missing path gives
the fixed sentinel.  `read_text` raising (the path exists but is a directory,
unreadable, or not UTF-8) propagates: nothing in the Python function catches
it, hence the `Except`. -/
def collect_source_context (fs : String → FileState) (target : String) :
    Except PyExc String :=
  let path := sourcePathOf target
  match fs ("codes/server/" ++ path) with
  | FileState.file content =>
      Except.ok (if 3000 < content.length then pyTake content 3000 else content)
  | FileState.absent => Except.ok "(소스 파일을 찾을 수 없음)"
  | FileState.unreadable e => Except.error e

/-- `collect_git_context` (lines 62–77).  The subprocess outcome is a
parameter, a function of the path passed after `--`.  A raised exception
(timeout, missing tool, missing working directory) is swallowed by the
`except Exception` and gives the failure sentinel; a completed process —
whatever its exit status — gives `result.stdout.strip() or "(최근 커밋 없음)"`,
so whitespace-only stdout gives the no-commits sentinel.  Total: never
raises past this boundary. -/
def collect_git_context (git : String → GitOutcome) (target : String) : String :=
  let path := historyPathOf target
  match git path with
  | GitOutcome.raises _ => "(git 정보 수집 실패)"
  | GitOutcome.completed _ stdout =>
      let s := pyStrip stdout
      if s = "" then "(최근 커밋 없음)" else s

/-! ## Response parsing -/

/-- Index of the last occurrence of `c` in `cs`. -/
def lastIdxOf (c : Char) (cs : List Char) : Option Nat :=
  match cs.reverse.findIdx? (fun x => x = c) with
  | none => none
  | some k => some (cs.length - 1 - k)

/-- `re.search(r'\{[\s\S]*\}', content)` (line 137): the leftmost, greedy
match runs from the first `'\x7b'` through the last `'\x7d'` of the text, and
exists exactly when the first open brace precedes some closing brace. -/
def extractBraceSpan (content : String) : Option String :=
  match content.data.findIdx? (fun x => x = '\x7b'), lastIdxOf '\x7d' content.data with
  | some i, some j =>
      if i < j then some ⟨(content.data.drop i).take (j + 1 - i)⟩ else none
  | _, _ => none

/-! ## The dispatcher -/

/-- The result dict returned by `diagnose`:
the decoded diagnosis object, `{"error": msg}`, or
`{"error": msg, "raw": excerpt}`. -/
inductive DiagResult where
  | ok (d : PyJson)
  | errorMsg (msg : String)
  | errorRaw (msg : String) (raw : String)

/-- The response-parsing stage of `diagnose` (lines 136–141, together with
the `except` at 143–144 as far as it concerns the `json.loads` call): locate
the brace span and decode it; no span gives the fixed
`{"error": "JSON 파싱 실패", "raw": content[:200]}`; a `json.loads` failure is
caught by the generic `except Exception as e` and gives `{"error": str(e)}`
(no `"raw"` key). -/
def parseResponse (jsonDecode : String → Except PyExc PyJson) (content : String) :
    DiagResult :=
  match extractBraceSpan content with
  | some span =>
    match jsonDecode span with
    | Except.ok j => DiagResult.ok j
    | Except.error e => DiagResult.errorMsg e
  | none => DiagResult.errorRaw "JSON 파싱 실패" (pyTake content 200)

/-- The observable side effects of one `diagnose` invocation, in order. -/
inductive Effect where
  | rateCheck
  | readSource (path : String)
  | runGit (path : String)
  | callLLM (prompt : String)

/-- The `fields` sub-dict of the input record. -/
structure ErrorFields where
  error_code : Option String

/-- The input record: a dict whose keys are all optional
(`error_log.get("target", "unknown")`,
`error_log.get("fields", {}).get("error_code", "UNKNOWN")`,
`error_log.get("message", "")`). -/
structure ErrorLog where
  target : Option String
  fields : Option ErrorFields
  message : Option String

/-- The prompt f-string of `diagnose` (lines 92–126). -/
def buildPrompt (error_code target message source git_log : String) : String :=
  "# 역할\n당신은 Rust 백엔드 시스템의 에러 진단 전문가입니다.\n\n# 에러 정보\n- **에러 코드**: "
    ++ error_code
    ++ "\n- **위치**: " ++ target
    ++ "\n- **메시지**: " ++ message
    ++ "\n\n# 관련 소스 코드\n```rust\n" ++ source
    ++ "\n```\n\n# 최근 커밋\n```\n" ++ git_log
    ++ "\n```\n\n# 요청\n다음 JSON 형식으로 진단 결과를 제공하세요:\n\n```json\n\x7b\n  \"severity\": \"critical|warning|info\",\n  \"root_cause\": \"근본 원인 (1-2문장)\",\n  \"impact\": \"영향 범위\",\n  \"recommendations\": [\n    \x7b\"priority\": 1, \"action\": \"권장 조치\", \"effort\": \"low|medium|high\"\x7d\n  ],\n  \"auto_fixable\": true|false,\n  \"fix_suggestion\": \"자동 수정 가능한 경우 구체적 변경 내용\"\n\x7d\n```\n\nJSON만 출력하세요."

/-- `diagnose` (lines 79–144).  Returns the produced result (or the raised
exception when `collect_source_context` raises, since lines 89–90 sit outside
the `try`), the store written by the rate-limit check, and the trace of
side effects.  Both a client exception and a `json.loads` failure on the
located span are caught by the one `except Exception as e` and become
`{"error": str(e)}`; only the no-brace-span case returns the fixed
`{"error": "JSON 파싱 실패", "raw": content[:200]}`. -/
def diagnose {α : Type} [LinearOrderedCommRing α] (env : Env) (now : α)
    (store : Option (List α)) (error_log : ErrorLog) :
    Except PyExc DiagResult × List α × List Effect :=
  let rl := check_rate_limit now store
  if rl.1 = false then
    (Except.ok (DiagResult.errorMsg "Rate limit exceeded (max 10 calls/hour)"), rl.2,
      [Effect.rateCheck])
  else
    let target := error_log.target.getD "unknown"
    let error_code := ((error_log.fields.getD ⟨none⟩).error_code).getD "UNKNOWN"
    let message := error_log.message.getD ""
    let srcPath := sourcePathOf target
    match collect_source_context env.fs target with
    | Except.error e => (Except.error e, rl.2, [Effect.rateCheck, Effect.readSource srcPath])
    | Except.ok source =>
      let gitPath := historyPathOf target
      let git_log := collect_git_context env.git target
      let prompt := buildPrompt error_code target message source git_log
      let trace := [Effect.rateCheck, Effect.readSource srcPath, Effect.runGit gitPath,
        Effect.callLLM prompt]
      match env.llm with
      | LLMOutcome.raises e => (Except.ok (DiagResult.errorMsg e), rl.2, trace)
      | LLMOutcome.returns content =>
        (Except.ok (parseResponse env.jsonDecode content), rl.2, trace)

/-! ## The `__main__` block -/

/-- Outcome of the `if __name__ == "__main__"` block (lines 146–157). -/
inductive MainOutcome where
  | usageError
  | printed (result : DiagResult)
  | invalidJson (msg : String)
  | crashed (e : PyExc)

/-- Process exit status for each outcome (`sys.exit(1)` for a missing
argument and for `json.JSONDecodeError`; an uncaught exception makes the
interpreter exit 1; otherwise the script falls off the end with 0). -/
def exitCodeOf : MainOutcome → Nat
  | MainOutcome.usageError => 1
  | MainOutcome.printed _ => 0
  | MainOutcome.invalidJson _ => 1
  | MainOutcome.crashed _ => 1

/-- The `__main__` block (lines 146–157).  `argLoads` models
`json.loads(sys.argv[1])` (`Except.error` carries `str(e)` of the
`json.JSONDecodeError`); `argv1` is `sys.argv[1]` when present.  Only a
`json.JSONDecodeError` is caught; an exception escaping `diagnose` crashes
the process.  Returns the outcome, the rate-limit store after the run, and
the effect trace. -/
def pyMain {α : Type} [LinearOrderedCommRing α] (env : Env)
    (argLoads : String → Except PyExc ErrorLog) (now : α)
    (store : Option (List α)) (argv1 : Option String) :
    MainOutcome × Option (List α) × List Effect :=
  match argv1 with
  | none => (MainOutcome.usageError, store, [])
  | some arg =>
    match argLoads arg with
    | Except.error e => (MainOutcome.invalidJson ("Invalid JSON: " ++ e), store, [])
    | Except.ok error_log =>
      match diagnose env now store error_log with
      | (Except.ok r, store', fx) => (MainOutcome.printed r, some store', fx)
      | (Except.error e, store', fx) => (MainOutcome.crashed e, some store', fx)

/-! ## Spec-side definitions and auxiliary discriminators -/

/-- The target-to-path mapping as the claim words it: ONLY a leading
`"server::"` prefix is substituted (by the root-relative directory token
`"src/"`), then each remaining `::` becomes `/`, then `.rs` is appended.
Stated from the claim's words, for comparison with the source transform. -/
def claimPrefixOnlyPath (target : String) : String :=
  let t : String :=
    if ("server::".data).isPrefixOf target.data
    then "src/" ++ String.mk (target.data.drop 8)
    else target
  pyReplace t "::" "/" ++ ".rs"

/-- Does a parse-stage result have the shape the claim describes for a parse
failure: `{"error": "JSON 파싱 실패", "raw": …}`, produced without raising? -/
def isFixedParseFailure : Except PyExc DiagResult → Bool
  | Except.ok (DiagResult.errorRaw m _) => m = "JSON 파싱 실패"
  | _ => false

/-- Did the call complete without an exception escaping? -/
def exceptIsOk : Except PyExc DiagResult → Bool
  | Except.ok _ => true
  | Except.error _ => false

/-! Concrete collaborator environments used to instantiate the theorems. -/

/-- A file system with exactly one readable file. -/
def fsOne (p c : String) : String → FileState :=
  fun q => if q = p then FileState.file c else FileState.absent

/-- Environment: no source files, a clean `git`, an LLM answering `"{bad}"`,
and `json.loads` behaving as CPython does on `"{bad}"`. -/
def envDecodeFail : Env where
  fs := fun _ => FileState.absent
  git := fun _ => GitOutcome.completed 0 "abc1234 fix bug"
  llm := LLMOutcome.returns "\x7bbad\x7d"
  jsonDecode := fun _ =>
    Except.error "Expecting property name enclosed in double quotes: line 1 column 2 (char 1)"

/-- Environment: the mapped source file exists but `read_text` raises
(here, non-UTF-8 bytes). -/
def envUnreadable : Env where
  fs := fun q =>
    if q = "codes/server/src/x.rs"
    then FileState.unreadable "UnicodeDecodeError: invalid start byte"
    else FileState.absent
  git := fun _ => GitOutcome.completed 0 ""
  llm := LLMOutcome.returns "\x7b\x7d"
  jsonDecode := fun _ => Except.ok (PyJson.obj [])

/-- A bland environment for witnesses on paths that never reach the LLM. -/
def envA : Env where
  fs := fun _ => FileState.absent
  git := fun _ => GitOutcome.completed 0 ""
  llm := LLMOutcome.returns ""
  jsonDecode := fun _ => Except.ok PyJson.null

/-- Ten timestamps inside the hour before `t = 10000`. -/
def tenRecent : List ℤ :=
  [6500, 6600, 6700, 6800, 6900, 7000, 7100, 7200, 7300, 7400]

/-! ## Helper lemmas for the rate-limiter invariant -/

section RateLimiterLemmas

variable {α : Type} [LinearOrderedCommRing α]

/-- Re-pruning an already pruned store at a later time prunes once:
the window filters compose. -/
theorem filter_window_compose (now prev : α) (l : List α) (hle : prev ≤ now) :
    (l.filter (fun t => decide (prev - 3600 < t))).filter
        (fun t => decide (now - 3600 < t))
      = l.filter (fun t => decide (now - 3600 < t)) := by
  rw [List.filter_filter]
  apply List.filter_congr
  intro t _
  by_cases h : now - 3600 < t
  · simp [h]
    linarith
  · simp [h]

/-- Core induction for the hourly budget: starting from a store that holds
exactly the admitted calls still inside the window of the previous call,
every trailing window over the admitted calls of the remaining run stays
within `MAX_CALLS_PER_HOUR`. -/
theorem runCallsFrom_window_bound :
    ∀ (times : List α) (prev : α) (admitted : List α),
      List.Pairwise (· ≤ ·) times →
      (∀ t ∈ times, prev ≤ t) →
      (∀ t ∈ admitted, t ≤ prev) →
      (∀ T, (admitted.filter (inTrailingWindow T)).length ≤ MAX_CALLS_PER_HOUR) →
      ∀ T, (((runCallsFrom (some (admitted.filter (fun t => decide (prev - 3600 < t))))
          admitted times).2).filter (inTrailingWindow T)).length ≤ MAX_CALLS_PER_HOUR
  | [], _, _, _, _, _, hbound, T => by
      simpa [runCallsFrom] using hbound T
  | now :: rest, prev, admitted, hsorted, hlb, hub, hbound, T => by
      have hpn : prev ≤ now := hlb now (List.mem_cons_self _ _)
      have hrest_sorted : List.Pairwise (· ≤ ·) rest := (List.pairwise_cons.mp hsorted).2
      have hrest_lb : ∀ t ∈ rest, now ≤ t := (List.pairwise_cons.mp hsorted).1
      have hW : (admitted.filter (fun t => decide (prev - 3600 < t))).filter
            (fun t => decide (now - 3600 < t))
          = admitted.filter (fun t => decide (now - 3600 < t)) :=
        filter_window_compose now prev admitted hpn
      have hcheck : check_rate_limit now
            (some (admitted.filter (fun t => decide (prev - 3600 < t))))
          = if MAX_CALLS_PER_HOUR ≤ (admitted.filter (fun t => decide (now - 3600 < t))).length
            then (false, admitted.filter (fun t => decide (now - 3600 < t)))
            else (true, admitted.filter (fun t => decide (now - 3600 < t)) ++ [now]) := by
        simp only [check_rate_limit, rateWindow, hW]
      simp only [runCallsFrom, hcheck]
      by_cases hfull :
          MAX_CALLS_PER_HOUR ≤ (admitted.filter (fun t => decide (now - 3600 < t))).length
      · simp only [if_pos hfull]
        exact runCallsFrom_window_bound rest now admitted hrest_sorted hrest_lb
          (fun t ht => le_trans (hub t ht) hpn) hbound T
      · simp only [if_neg hfull]
        have h3600 : (0 : α) < 3600 := by norm_num
        have hnow_in : (fun t => decide (now - 3600 < t)) now = true := by
          simp [sub_lt_self now h3600]
        have happ : (admitted ++ [now]).filter (fun t => decide (now - 3600 < t))
            = admitted.filter (fun t => decide (now - 3600 < t)) ++ [now] := by
          rw [List.filter_append]
          simp [hnow_in]
        have hub' : ∀ t ∈ admitted ++ [now], t ≤ now := by
          intro t ht
          rcases List.mem_append.mp ht with h | h
          · exact le_trans (hub t h) hpn
          · simp at h; subst h; exact le_refl _
        have hlt : (admitted.filter (fun t => decide (now - 3600 < t))).length
            < MAX_CALLS_PER_HOUR := Nat.not_le.mp hfull
        have hbound' : ∀ T', ((admitted ++ [now]).filter (inTrailingWindow T')).length
            ≤ MAX_CALLS_PER_HOUR := by
          intro T'
          rw [List.filter_append, List.length_append]
          by_cases hin : inTrailingWindow T' now = true
          · have h1 : (List.filter (inTrailingWindow T') [now]).length = 1 := by
              simp [hin]
            rw [h1]
            have hmono : (admitted.filter (inTrailingWindow T')).length
                ≤ (admitted.filter (fun t => decide (now - 3600 < t))).length := by
              apply List.Sublist.length_le
              apply List.monotone_filter_right
              intro a ha
              simp only [inTrailingWindow, Bool.and_eq_true, decide_eq_true_eq] at ha hin ⊢
              linarith [ha.1, ha.2, hin.1, hin.2]
            omega
          · have h1 : (List.filter (inTrailingWindow T') [now]).length = 0 := by
              rw [Bool.not_eq_true] at hin
              simp [hin]
            rw [h1]
            simpa using hbound T'
        have hrec := runCallsFrom_window_bound rest now (admitted ++ [now]) hrest_sorted
          hrest_lb hub' hbound' T
        rw [happ] at hrec
        simpa using hrec

end RateLimiterLemmas

/-! ## The claims -/

/-- C1: for every serialized (monotone-clock) sequence of `check_rate_limit`
calls starting from a missing store, the number of admitted calls whose
timestamps lie within any trailing 3600-second window `(T - 3600, T]` never
exceeds `MAX_CALLS_PER_HOUR = 10`; moreover, at the moment any call is
admitted the persisted window holds at most 10 records, and admission
appends exactly one new timestamp record (`now`) to the pruned window. -/
theorem C1_hourly_budget_invariant {α : Type} [LinearOrderedCommRing α]
    (times : List α) (hsorted : List.Pairwise (· ≤ ·) times)
    (T now : α) (store : Option (List α))
    (hadm : (check_rate_limit now store).1 = true) :
    (((runCalls times).2).filter (inTrailingWindow T)).length ≤ MAX_CALLS_PER_HOUR ∧
    (check_rate_limit now store).2 = storedWindow now store ++ [now] ∧
    ((check_rate_limit now store).2).length ≤ MAX_CALLS_PER_HOUR := by
  have h3600 : (0 : α) < 3600 := by norm_num
  refine ⟨?_, ?_, ?_⟩
  · cases times with
    | nil => simp [runCalls, runCallsFrom, MAX_CALLS_PER_HOUR]
    | cons now0 rest =>
      have h0 : ([now0] : List α).filter (fun t => decide (now0 - 3600 < t)) = [now0] := by
        simp [sub_lt_self now0 h3600]
      have hfirst : runCalls (now0 :: rest) = runCallsFrom (some [now0]) [now0] rest := by
        simp [runCalls, runCallsFrom, check_rate_limit]
      rw [hfirst]
      have hb := runCallsFrom_window_bound rest now0 [now0] (List.pairwise_cons.mp hsorted).2
        (List.pairwise_cons.mp hsorted).1
        (by intro t ht; simp at ht; subst ht; exact le_refl _)
        (by
          intro T'
          refine le_trans (List.length_filter_le _ _) ?_
          simp [MAX_CALLS_PER_HOUR])
        T
      rw [h0] at hb
      exact hb
  · cases store with
    | none => simp [check_rate_limit, storedWindow]
    | some calls =>
      by_cases hfull : MAX_CALLS_PER_HOUR ≤ (rateWindow now calls).length
      · simp [check_rate_limit, hfull] at hadm
      · simp [check_rate_limit, hfull, storedWindow]
  · cases store with
    | none => simp [check_rate_limit, MAX_CALLS_PER_HOUR]
    | some calls =>
      by_cases hfull : MAX_CALLS_PER_HOUR ≤ (rateWindow now calls).length
      · simp [check_rate_limit, hfull] at hadm
      · have hlt : (rateWindow now calls).length < MAX_CALLS_PER_HOUR := Nat.not_le.mp hfull
        simp only [check_rate_limit, if_neg hfull]
        rw [List.length_append]
        simp only [List.length_singleton]
        omega

/-- C1 witness: a concrete sorted run and a concrete admitted call. -/
theorem C1_hourly_budget_invariant_witness :
    ((((runCalls [0, 1, 2, 3600, 7200]).2 : List ℤ).filter (inTrailingWindow 7200)).length
        ≤ MAX_CALLS_PER_HOUR) ∧
    (check_rate_limit (10000 : ℤ) (some [7000, 8000])).2
        = storedWindow (10000 : ℤ) (some [7000, 8000]) ++ [10000] ∧
    ((check_rate_limit (10000 : ℤ) (some [7000, 8000])).2).length ≤ MAX_CALLS_PER_HOUR :=
  C1_hourly_budget_invariant [0, 1, 2, 3600, 7200] (by decide) 7200 10000
    (some [7000, 8000]) (by decide)

/-- C2 counterexample: when the LLM response contains a brace span whose
decoding fails (`"{bad}"`), `diagnose` does NOT return the fixed
`"JSON 파싱 실패"` error with a raw excerpt; the `json.loads` exception is
caught by the generic handler and the result is `{"error": str(e)}` with no
`"raw"` key. -/
theorem C2_counterexample_decode_failure_shape :
    isFixedParseFailure (diagnose envDecodeFail (0 : ℤ) none ⟨none, none, none⟩).1 = false ∧
    (diagnose envDecodeFail (0 : ℤ) none ⟨none, none, none⟩).1 =
      Except.ok (DiagResult.errorMsg
        "Expecting property name enclosed in double quotes: line 1 column 2 (char 1)") := by
  constructor <;> rfl

/-- C2 amended: the parser locates the span from the first open brace through
the last closing brace and decodes it; if NO brace span is found it returns
the fixed `"JSON 파싱 실패"` error carrying `content[:200]` (≤ 200 characters);
if decoding of a located span fails, the generic exception handler returns
`{"error": str(e)}` with no raw excerpt. -/
theorem C2_amended_parse_behavior (dec : String → Except PyExc PyJson)
    (content span : String) (j : PyJson) (e : PyExc) :
    (extractBraceSpan content = none →
      parseResponse dec content = DiagResult.errorRaw "JSON 파싱 실패" (pyTake content 200) ∧
      (pyTake content 200).length ≤ 200) ∧
    (extractBraceSpan content = some span → dec span = Except.ok j →
      parseResponse dec content = DiagResult.ok j) ∧
    (extractBraceSpan content = some span → dec span = Except.error e →
      parseResponse dec content = DiagResult.errorMsg e) := by
  refine ⟨fun h => ⟨by simp [parseResponse, h], ?_⟩,
    fun h hd => by simp [parseResponse, h, hd],
    fun h hd => by simp [parseResponse, h, hd]⟩
  show (String.mk (content.data.take 200)).length ≤ 200
  simp only [String.length, List.length_take]
  exact Nat.min_le_left _ _

/-- C2 amended witness: `parse("no json here")` and a successful decode of a
span embedded in prose. -/
theorem C2_amended_parse_behavior_witness :
    (parseResponse (fun _ => Except.ok PyJson.null) "no json here"
        = DiagResult.errorRaw "JSON 파싱 실패" (pyTake "no json here" 200) ∧
      (pyTake "no json here" 200).length ≤ 200) ∧
    parseResponse (fun _ => Except.ok PyJson.null) "noise \x7b\"severity\": 1\x7d tail"
        = DiagResult.ok PyJson.null :=
  ⟨(C2_amended_parse_behavior (fun _ => Except.ok PyJson.null) "no json here"
      "" PyJson.null "").1 rfl,
   ((C2_amended_parse_behavior (fun _ => Except.ok PyJson.null)
      "noise \x7b\"severity\": 1\x7d tail" "\x7b\"severity\": 1\x7d" PyJson.null "").2.1
      rfl rfl)⟩

/-- C3: when the rate limiter rejects, `diagnose` returns
`{"error": "Rate limit exceeded (max 10 calls/hour)"}` at once and the effect
trace is just the rate check: no source read, no `git` run, no prompt built,
the LLM client never invoked. -/
theorem C3_rate_limited_short_circuit {α : Type} [LinearOrderedCommRing α]
    (env : Env) (now : α) (store : Option (List α)) (el : ErrorLog)
    (h : (check_rate_limit now store).1 = false) :
    diagnose env now store el =
      (Except.ok (DiagResult.errorMsg "Rate limit exceeded (max 10 calls/hour)"),
       (check_rate_limit now store).2, [Effect.rateCheck]) := by
  simp [diagnose, h]

/-- C3 witness: a store holding ten in-window timestamps rejects the call. -/
theorem C3_rate_limited_short_circuit_witness :
    diagnose envA (10000 : ℤ) (some tenRecent) ⟨none, none, none⟩ =
      (Except.ok (DiagResult.errorMsg "Rate limit exceeded (max 10 calls/hour)"),
       (check_rate_limit (10000 : ℤ) (some tenRecent)).2, [Effect.rateCheck]) :=
  C3_rate_limited_short_circuit envA 10000 (some tenRecent) ⟨none, none, none⟩ (by decide)

/-- C4: on a readable mapped file of at most 3000 characters
`collect_source_context` returns the exact contents; over 3000 characters it
returns exactly the first 3000 (no ellipsis marker); on a missing path it
returns the fixed not-found sentinel. -/
theorem C4_source_truncation (fs : String → FileState) (target c : String) :
    (fs ("codes/server/" ++ sourcePathOf target) = FileState.file c →
      (c.length ≤ 3000 → collect_source_context fs target = Except.ok c) ∧
      (3000 < c.length → collect_source_context fs target = Except.ok (pyTake c 3000))) ∧
    (fs ("codes/server/" ++ sourcePathOf target) = FileState.absent →
      collect_source_context fs target = Except.ok "(소스 파일을 찾을 수 없음)") := by
  constructor
  · intro h
    constructor
    · intro hle
      simp [collect_source_context, h, Nat.not_lt.mpr hle]
    · intro hgt
      simp [collect_source_context, h, hgt]
  · intro h
    simp [collect_source_context, h]

/-- C4 witness: a small existing file is returned verbatim; a missing file
gives the sentinel. -/
theorem C4_source_truncation_witness :
    collect_source_context (fsOne "codes/server/src/a.rs" "abc") "server::a"
      = Except.ok "abc" ∧
    collect_source_context (fun _ => FileState.absent) "server::a"
      = Except.ok "(소스 파일을 찾을 수 없음)" :=
  ⟨((C4_source_truncation (fsOne "codes/server/src/a.rs" "abc") "server::a" "abc").1
      rfl).1 (by decide),
   (C4_source_truncation (fun _ => FileState.absent) "server::a" "abc").2 rfl⟩

/-- C5 counterexample: Python `str.replace` substitutes EVERY occurrence of
`"server::"`, not only a leading prefix: on `"a::server::b"` the source
transform yields `"a/src/b.rs"`, while the claimed prefix-only mapping
yields `"a/server/b.rs"`. -/
theorem C5_counterexample_interior_prefix :
    sourcePathOf "a::server::b" = "a/src/b.rs" ∧
    claimPrefixOnlyPath "a::server::b" = "a/server/b.rs" ∧
    sourcePathOf "a::server::b" ≠ claimPrefixOnlyPath "a::server::b" := by
  refine ⟨rfl, rfl, ?_⟩
  decide

/-- C5 amended: the mapping substitutes every occurrence of `"server::"` with
`"src/"`, then each remaining `"::"` with `"/"`, then appends `".rs"`; the
identical pure transform is used by `collect_source_context` and
`collect_git_context`, and it agrees with prefix-only substitution when
`"server::"` occurs only as a leading prefix. -/
theorem C5_amended_global_replace :
    (∀ t, sourcePathOf t = historyPathOf t) ∧
    sourcePathOf "server::domain::ai::service" = "src/domain/ai/service.rs" ∧
    claimPrefixOnlyPath "server::domain::ai::service"
      = sourcePathOf "server::domain::ai::service" ∧
    (∀ t, sourcePathOf t = pyReplace (pyReplace t "server::" "src/") "::" "/" ++ ".rs") :=
  ⟨fun _ => rfl, rfl, rfl, fun _ => rfl⟩

/-- C5 amended witness: the shared transform evaluated on the spec's example. -/
theorem C5_amended_global_replace_witness :
    sourcePathOf "server::domain::ai::service" = historyPathOf "server::domain::ai::service" ∧
    sourcePathOf "server::domain::ai::service" = "src/domain/ai/service.rs" :=
  ⟨C5_amended_global_replace.1 "server::domain::ai::service",
   C5_amended_global_replace.2.1⟩

/-- C6 counterexample: in a non-repository working directory `git log`
completes (exit status 128, empty stdout) instead of raising — with no
`check=True`, `subprocess.run` does not raise on a nonzero exit — so
`collect_git_context` returns the no-commits sentinel there, not the
distinct failure sentinel the claim requires. -/
theorem C6_counterexample_nonrepo_completes :
    collect_git_context (fun _ => GitOutcome.completed 128 "") "server::domain::ai::service"
      = "(최근 커밋 없음)" ∧
    "(최근 커밋 없음)" ≠ "(git 정보 수집 실패)" := by
  constructor
  · rfl
  · decide

/-- C6 amended: `collect_git_context` never raises past its boundary (it is a
total function of the subprocess outcome); a raised exception (timeout,
missing tool, missing working directory) gives the `"(git 정보 수집 실패)"`
sentinel; a completed invocation with whitespace-only stdout — including a
non-repository directory, where `git log` exits 128 with empty stdout —
gives the `"(최근 커밋 없음)"` sentinel; otherwise the stripped stdout is
returned. -/
theorem C6_amended_history_sentinels (git : String → GitOutcome) (target : String)
    (e : PyExc) (rc : Int) (out : String) :
    (git (historyPathOf target) = GitOutcome.raises e →
      collect_git_context git target = "(git 정보 수집 실패)") ∧
    (git (historyPathOf target) = GitOutcome.completed rc out →
      (pyStrip out = "" → collect_git_context git target = "(최근 커밋 없음)") ∧
      (pyStrip out ≠ "" → collect_git_context git target = pyStrip out)) := by
  constructor
  · intro h
    simp [collect_git_context, h]
  · intro h
    constructor
    · intro he
      simp [collect_git_context, h, he]
    · intro hne
      simp [collect_git_context, h, hne]

/-- C6 amended witness: a timeout gives the failure sentinel; whitespace-only
stdout gives the no-commits sentinel; real output is stripped and returned. -/
theorem C6_amended_history_sentinels_witness :
    collect_git_context (fun _ => GitOutcome.raises "TimeoutExpired") "server::a"
      = "(git 정보 수집 실패)" ∧
    collect_git_context (fun _ => GitOutcome.completed 0 " \n") "server::a"
      = "(최근 커밋 없음)" ∧
    collect_git_context (fun _ => GitOutcome.completed 0 "abc1234 fix\n") "server::a"
      = pyStrip "abc1234 fix\n" :=
  ⟨(C6_amended_history_sentinels (fun _ => GitOutcome.raises "TimeoutExpired")
      "server::a" "TimeoutExpired" 0 "").1 rfl,
   ((C6_amended_history_sentinels (fun _ => GitOutcome.completed 0 " \n")
      "server::a" "" 0 " \n").2 rfl).1 (by decide),
   ((C6_amended_history_sentinels (fun _ => GitOutcome.completed 0 "abc1234 fix\n")
      "server::a" "" 0 "abc1234 fix\n").2 rfl).2 (by decide)⟩

/-- C7 counterexample: a source file that exists but cannot be read
(`read_text` raises, e.g. on non-UTF-8 bytes) does NOT degrade to a sentinel:
the exception escapes `collect_source_context` (which has no handler) and
aborts `diagnose` before `git`, the prompt, or the LLM; at top level it even
crashes the process, since `__main__` catches only `json.JSONDecodeError`. -/
theorem C7_counterexample_unreadable_source_aborts :
    (diagnose envUnreadable (0 : ℤ) none ⟨some "server::x", none, none⟩).1 =
      Except.error "UnicodeDecodeError: invalid start byte" ∧
    pyMain envUnreadable (fun _ => Except.ok ⟨some "server::x", none, none⟩) (0 : ℤ) none
        (some "\x7b\"target\": \"server::x\"\x7d") =
      (MainOutcome.crashed "UnicodeDecodeError: invalid start byte", some [0],
       [Effect.rateCheck, Effect.readSource "src/x.rs"]) := by
  constructor <;> rfl

/-- C7 amended: whenever the admitted call's source read completes without
raising — in particular when the file is missing and the not-found sentinel
is substituted — and whatever the `git` and LLM outcomes (history failures
always degrade to sentinels), the dispatcher proceeds: it builds the prompt,
invokes the LLM, and no exception escapes; only an existing-but-unreadable
source file aborts the pipeline. -/
theorem C7_amended_context_degradation {α : Type} [LinearOrderedCommRing α]
    (env : Env) (now : α) (store : Option (List α)) (el : ErrorLog) (s : String)
    (hadm : (check_rate_limit now store).1 = true)
    (hsrc : collect_source_context env.fs (el.target.getD "unknown") = Except.ok s) :
    exceptIsOk (diagnose env now store el).1 = true ∧
    (diagnose env now store el).2.2 =
      [Effect.rateCheck, Effect.readSource (sourcePathOf (el.target.getD "unknown")),
       Effect.runGit (historyPathOf (el.target.getD "unknown")),
       Effect.callLLM (buildPrompt (((el.fields.getD ⟨none⟩).error_code).getD "UNKNOWN")
         (el.target.getD "unknown") (el.message.getD "") s
         (collect_git_context env.git (el.target.getD "unknown")))] := by
  simp only [diagnose, hadm]
  simp only [hsrc]
  cases env.llm <;> simp [exceptIsOk]

/-- C7 amended witness: with every source file missing, the pipeline runs to
completion on the sentinel context. -/
theorem C7_amended_context_degradation_witness :
    exceptIsOk (diagnose envA (0 : ℤ) none ⟨none, none, none⟩).1 = true ∧
    (diagnose envA (0 : ℤ) none ⟨none, none, none⟩).2.2 =
      [Effect.rateCheck, Effect.readSource (sourcePathOf "unknown"),
       Effect.runGit (historyPathOf "unknown"),
       Effect.callLLM (buildPrompt "UNKNOWN" "unknown" ""
         "(소스 파일을 찾을 수 없음)" (collect_git_context envA.git "unknown"))] :=
  C7_amended_context_degradation envA 0 none ⟨none, none, none⟩
    "(소스 파일을 찾을 수 없음)" rfl rfl

/-- C8: the rate window is a strict filter: a persisted timestamp `t` is in
the window if and only if `t > now - 3600`; in particular the boundary value
`now - 3600` itself is always excluded. -/
theorem C8_strict_window_filter {α : Type} [LinearOrderedCommRing α]
    (now t : α) (calls : List α) :
    (t ∈ rateWindow now calls ↔ t ∈ calls ∧ now - 3600 < t) ∧
    now - 3600 ∉ rateWindow now calls := by
  constructor
  · simp [rateWindow, List.mem_filter]
  · simp [rateWindow, List.mem_filter]

/-- C8 witness: `6401 > 10000 - 3600` is kept, the boundary `6400` is not. -/
theorem C8_strict_window_filter_witness :
    ((6401 : ℤ) ∈ rateWindow (10000 : ℤ) [6400, 6401] ↔
      (6401 : ℤ) ∈ [(6400 : ℤ), 6401] ∧ (10000 : ℤ) - 3600 < 6401) ∧
    (10000 : ℤ) - 3600 ∉ rateWindow (10000 : ℤ) [6400, 6401] :=
  C8_strict_window_filter 10000 6401 [6400, 6401]

/-- C9: a malformed JSON argument is rejected by the top-level handler before
`diagnose` runs: the store is untouched, no effect (not even the rate check)
is performed, the reported error is the invalid-input kind — distinct from
any printed diagnosis result — and the exit status is 1. -/
theorem C9_invalid_input_short_circuit {α : Type} [LinearOrderedCommRing α]
    (env : Env) (argLoads : String → Except PyExc ErrorLog)
    (now : α) (store : Option (List α)) (arg : String) (e : PyExc)
    (h : argLoads arg = Except.error e) :
    pyMain env argLoads now store (some arg) =
      (MainOutcome.invalidJson ("Invalid JSON: " ++ e), store, []) ∧
    exitCodeOf (MainOutcome.invalidJson ("Invalid JSON: " ++ e)) = 1 ∧
    (∀ r : DiagResult, MainOutcome.invalidJson ("Invalid JSON: " ++ e)
        ≠ MainOutcome.printed r) := by
  refine ⟨?_, rfl, ?_⟩
  · simp [pyMain, h]
  · intro r hcon
    cases hcon

/-- C9 witness: `json.loads("oops")` fails; the store (even a full one) is
left untouched and nothing else runs. -/
theorem C9_invalid_input_short_circuit_witness :
    pyMain envA (fun _ => Except.error "Expecting value: line 1 column 1 (char 0)")
        (10000 : ℤ) (some tenRecent) (some "oops") =
      (MainOutcome.invalidJson "Invalid JSON: Expecting value: line 1 column 1 (char 0)",
       some tenRecent, []) :=
  (C9_invalid_input_short_circuit envA
    (fun _ => Except.error "Expecting value: line 1 column 1 (char 0)")
    10000 (some tenRecent) "oops" "Expecting value: line 1 column 1 (char 0)" rfl).1

/-- C10: `check_rate_limit` rewrites the store on every path: a missing file
becomes `[now]`; otherwise the new store is exactly the read timestamps
strictly inside the trailing hour, with `now` appended iff the call was
admitted (rejected attempts are never recorded); every persisted timestamp
is strictly inside the window of `now`. -/
theorem C10_store_rewrite {α : Type} [LinearOrderedCommRing α]
    (now t : α) (calls : List α) :
    check_rate_limit now none = (true, [now]) ∧
    ((check_rate_limit now (some calls)).2 =
      rateWindow now calls ++ (if (check_rate_limit now (some calls)).1 then [now] else [])) ∧
    ((check_rate_limit now (some calls)).1 = false →
      (check_rate_limit now (some calls)).2 = rateWindow now calls) ∧
    (t ∈ (check_rate_limit now (some calls)).2 → now - 3600 < t) ∧
    (t ∈ (check_rate_limit now none).2 → now - 3600 < t) := by
  have h3600 : (0 : α) < 3600 := by norm_num
  refine ⟨rfl, ?_, ?_, ?_, ?_⟩
  · by_cases h : MAX_CALLS_PER_HOUR ≤ (rateWindow now calls).length <;>
      simp [check_rate_limit, h]
  · by_cases h : MAX_CALLS_PER_HOUR ≤ (rateWindow now calls).length <;>
      simp [check_rate_limit, h]
  · intro hmem
    simp only [check_rate_limit] at hmem
    split at hmem
    · simp [rateWindow, List.mem_filter] at hmem
      exact hmem.2
    · simp [rateWindow, List.mem_filter] at hmem
      rcases hmem with ⟨_, h2⟩ | rfl
      · exact h2
      · linarith
  · intro hmem
    simp [check_rate_limit] at hmem
    subst hmem
    linarith

/-- C10 witness: at time 10000 an admitted call prunes the expired timestamp
1000 and appends 10000; every stored timestamp exceeds 6400. -/
theorem C10_store_rewrite_witness :
    check_rate_limit (10000 : ℤ) none = (true, [10000]) ∧
    ((check_rate_limit (10000 : ℤ) (some [1000, 7000])).2 =
      rateWindow (10000 : ℤ) [1000, 7000] ++
        (if (check_rate_limit (10000 : ℤ) (some [1000, 7000])).1 then [10000] else [])) ∧
    (10000 : ℤ) - 3600 < 7000 :=
  ⟨(C10_store_rewrite (10000 : ℤ) (7000 : ℤ) [1000, 7000]).1,
   (C10_store_rewrite (10000 : ℤ) (7000 : ℤ) [1000, 7000]).2.1,
   (C10_store_rewrite (10000 : ℤ) (7000 : ℤ) [1000, 7000]).2.2.2.1 (by decide)⟩

end DiagnosticAgent
